import Mathlib

/-!
# Verification of the apollo-server request pipeline and HTTP-query coordinator

Shallow embedding of
* `packages/apollo-server-core/src/requestPipeline.ts`
  (`GraphQLRequestPipeline.processRequest`, `computeQueryHash`, APQ resolution,
  data-source initialization, `sendResponse`), and
* the `runHttpQuery` coordinator (`HttpQueryError`, `throwHttpGraphQLError`,
  batching, per-member error isolation, the single-request 400 rule).

External collaborators (the `graphql` library's `parse`/`validate`/
`getOperationAST`/`execute`, `JSON.parse`, the sha256 digest and the
cache-control header calculator of the missing `./caching` module) are
parameters of the model, as the spec treats them as external interfaces.
The invocation point of `willExecuteOperation` lives in the repository's
`requestProcessing.ts`, which is not among the sources; that single hook
point is modelled from the spec (see `processRequest`).
-/

set_option autoImplicit false

namespace ApolloServer

/-- A JSON-like GraphQL value (field data, variableValues, extension payloads). -/
inductive GValue where
  | null
  | bool (b : Bool)
  | num (n : Int)
  | str (s : String)
  | arr (elems : List GValue)
  | obj (fields : List (String × GValue))
  deriving Repr

/-- A formatted GraphQL error as placed in a response's `errors` array.
The error-classification collaborator (`apollo-server-errors`) is modelled
by its observable output: the message carried by the formatted error. -/
structure GqlError where
  message : String
  deriving Repr, DecidableEq

/-- `GraphQLResponse` from `requestPipelineAPI`: `\x7bdata?, errors?, extensions?\x7d`.
`data := some .null` models JSON `null`, `none` models an absent key. -/
structure GraphQLResponse where
  data : Option GValue := none
  errors : Option (List GqlError) := none
  extensions : Option (List (String × GValue)) := none
  deriving Repr

/-- `extensions.persistedQuery` block of a request: `\x7bversion, sha256Hash\x7d`. -/
structure PersistedQueryExtension where
  version : Int
  sha256Hash : String
  deriving Repr, DecidableEq

/-- The request `extensions` object, of which the pipeline reads only
`persistedQuery`. -/
structure RequestExtensions where
  persistedQuery : Option PersistedQueryExtension := none
  deriving Repr, DecidableEq

/-- `GraphQLRequest`: the immutable input of one pipeline invocation. -/
structure GraphQLRequest where
  query : Option String := none
  operationName : Option String := none
  variableValues : Option GValue := none
  extensions : Option RequestExtensions := none

/-- Errors thrown by the pipeline or the coordinator's per-request checks,
mirroring the classes of `apollo-server-errors` / `requestPipelineAPI` /
`runHttpQuery` (`HttpQueryError` carries status, message, isGraphQLError
and headers). `configurationError` is the plain `Error` thrown for the
`dataSources`-on-context clash. -/
inductive QueryError where
  | persistedQueryNotSupported
  | persistedQueryNotFound
  | invalidGraphQLRequest (message : String)
  | httpError (statusCode : Nat) (message : String) (isGraphQLError : Bool)
      (headers : List (String × String))
  | configurationError (message : String)
  deriving Repr, DecidableEq

/-- The kind of a resolved operation AST (`operation.operation` in graphql-js). -/
inductive OperationKind where
  | query
  | mutation
  | subscription
  deriving Repr, DecidableEq

/-- The slice of a graphql-js `OperationDefinitionNode` that the pipeline
inspects: its kind and its (optional) name. -/
structure Operation where
  kind : OperationKind
  name : Option String := none
  deriving Repr, DecidableEq

/-- The external `graphql` library (parse / validate / getOperationAST /
execute), abstracted over the document type `Doc`. The schema, validation
rules, root value and context value are baked into the functions, since the
pipeline threads them through unchanged from its configuration.
`parse` returns the syntax-error message on failure, `validate` the list of
validation-error messages, `execute` either a thrown execution-error message
or an execution result. -/
structure GraphQLLib (Doc : Type) where
  parse : String → Except String Doc
  validate : Doc → List String
  getOperationAST : Doc → Option String → Option Operation
  execute : Doc → Option String → Option GValue → Except String GraphQLResponse

/-- Observable lifecycle points recorded by a pipeline invocation: the
whole-request extension wrapper (`extensionStack.requestDidStart` and the
`finally` call of its end function), the `willSendResponse` dispatch of
`sendResponse`, and reaching the EXECUTE stage. -/
inductive PEvent where
  | requestDidStart
  | willSendResponse
  | executeReached
  | requestDidEnd
  deriving Repr, DecidableEq

/-- Pipeline configuration: the fields of `GraphQLRequestPipelineConfig`
that produce observable behavior in the model. `persistedQueries` is the
presence of a configured persisted-query cache; `dataSources`, when present,
lists the names produced by the configured factory; `contextKeys` are the
keys already present on the per-request context object; `extFormat` is the
output of `extensionStack.format()`. -/
structure PipelineConfig where
  persistedQueries : Bool := false
  dataSources : Option (List String) := none
  contextKeys : List String := []
  extFormat : List (String × GValue) := []
  formatResponse : Option (GraphQLResponse → GraphQLResponse) := none

/-- The persisted-query cache contents: newest entry first, later `set`s
shadow earlier ones (`cacheGet` reads the first match). -/
def Cache : Type := List (String × String)

/-- `cache.get(key)`: first entry for the key, `none` when absent. -/
def cacheGet (cache : Cache) (key : String) : Option String :=
  (List.find? (fun e => e.1 = key) cache).map (fun e => e.2)

/-- `cache.set(key, value)`: prepend, shadowing any older entry. -/
def cacheSet (cache : Cache) (key : String) (value : String) : Cache :=
  (key, value) :: cache

/-- Apply a list of scheduled `set` calls to a cache. -/
def applyWrites (writes : List (String × String)) (cache : Cache) : Cache :=
  List.foldl (fun c w => cacheSet c w.1 w.2) cache writes

/-- `computeQueryHash` delegates to the crypto library's sha256 hex digest;
the digest itself is an external function, passed as `sha256` below. -/
def computeQueryHash (sha256 : String → String) (query : String) : String :=
  sha256 query

/-- Result of the RESOLVE_QUERY stage: the query text to process, the
`persistedQueryHit` / `persistedQueryRegister` markers, and the cache `set`
calls scheduled fire-and-forget on the register path. -/
structure ResolvedQuery where
  query : String
  persistedQueryHit : Bool
  persistedQueryRegister : Bool
  writes : List (String × String)
  deriving Repr, DecidableEq

/-- The APQ block of `processRequest` (requestPipeline.ts lines 117-175).
JavaScript truthiness is modelled exactly: the literal-query branch tests
`query` truthy (so the empty string falls through to "Must provide query
string."), the cache-hit branch tests `if (query)` on the retrieved text
(so a stored empty string throws `PersistedQueryNotFound`), while the
guard choosing lookup over register tests `query === undefined` only. -/
def resolveQuery (config : PipelineConfig) (sha256 : String → String)
    (cache : Cache) (request : GraphQLRequest) :
    Except QueryError ResolvedQuery :=
  match request.extensions.bind (fun e => e.persistedQuery) with
  | some pq =>
    if !config.persistedQueries then
      .error .persistedQueryNotSupported
    else if pq.version ≠ 1 then
      .error (.invalidGraphQLRequest "Unsupported persisted query version")
    else
      match request.query with
      | none =>
        match cacheGet cache ("apq:" ++ pq.sha256Hash) with
        | some q =>
          if q = "" then .error .persistedQueryNotFound
          else .ok ⟨q, true, false, []⟩
        | none => .error .persistedQueryNotFound
      | some q =>
        if pq.sha256Hash ≠ computeQueryHash sha256 q then
          .error (.invalidGraphQLRequest "provided sha does not match query")
        else
          .ok ⟨q, false, true, [("apq:" ++ pq.sha256Hash, q)]⟩
  | none =>
    match request.query with
    | some q =>
      if q = "" then .error (.invalidGraphQLRequest "Must provide query string.")
      else .ok ⟨q, false, false, []⟩
    | none => .error (.invalidGraphQLRequest "Must provide query string.")

/-- `initializeDataSources`: when a `dataSources` factory is configured and
the user context already carries a `dataSources` key, a plain `Error` is
thrown (a configuration error, not per-request recoverable). -/
def initializeDataSourcesCheck (config : PipelineConfig) : Option QueryError :=
  match config.dataSources with
  | some _ =>
    if config.contextKeys.contains "dataSources" then
      some (.configurationError
        "Please use the dataSources config option instead of putting dataSources on the context yourself.")
    else none
  | none => none

/-- Full outcome of one `processRequest` invocation: the returned response
or thrown error, the observable lifecycle events in order, the cache `set`
calls it scheduled without awaiting them, and whether a failed write was
logged (`console.warn` in the detached catch). -/
structure PipelineOutcome where
  result : Except QueryError GraphQLResponse
  events : List PEvent
  scheduledWrites : List (String × String)
  warnLogged : Bool
  deriving Repr

/-- The PARSE → VALIDATE → RESOLVE_OPERATION → EXECUTE → FORMAT body of
`processRequest` (the `try` block, requestPipeline.ts lines 192-284),
given the resolved query text. Parse, validation and execution errors are
converted into `\x7berrors\x7d` responses and sent through `sendResponse`
(recorded as the `willSendResponse` event). The `willExecuteOperation`
hook is the one point modelled from the spec: `runHttpQuery` installs it
on GET requests and the processor invokes it with the resolved operation
before EXECUTE; an error it throws propagates out of the pipeline without
reaching `sendResponse`. -/
def runParsedQuery {Doc : Type} (lib : GraphQLLib Doc) (config : PipelineConfig)
    (willExecuteOperation : Option (Operation → Option QueryError))
    (query : String) (operationName : Option String)
    (variableValues : Option GValue) :
    Except QueryError GraphQLResponse × List PEvent :=
  match lib.parse query with
  | .error msg =>
    (.ok { errors := some [{ message := msg }] }, [.willSendResponse])
  | .ok document =>
    match lib.validate document with
    | verr :: verrs =>
      (.ok { errors := some ((verr :: verrs).map (fun m => { message := m })) },
        [.willSendResponse])
    | [] =>
      let operation := lib.getOperationAST document operationName
      let hookError : Option QueryError :=
        match willExecuteOperation, operation with
        | some hook, some op => hook op
        | _, _ => none
      match hookError with
      | some e => (.error e, [])
      | none =>
        match lib.execute document operationName variableValues with
        | .error msg =>
          (.ok { errors := some [{ message := msg }] },
            [.executeReached, .willSendResponse])
        | .ok response =>
          let response :=
            if config.extFormat.isEmpty then response
            else { response with extensions := some config.extFormat }
          let response :=
            match config.formatResponse with
            | some f => f response
            | none => response
          (.ok response, [.executeReached, .willSendResponse])

/-- `GraphQLRequestPipeline.processRequest`. Data-source initialization and
the APQ block run before `extensionStack.requestDidStart`, so their throws
escape without any lifecycle event; once the query is resolved, the body
runs inside `try ... finally requestDidEnd()`. `setFails` tells whether the
fire-and-forget cache write will fail; its only consequence is the logged
warning. With `willExecuteOperation := none` this is exactly the
requestPipeline.ts source; the hook point itself is modelled from the spec
for the processor variant `runHttpQuery` instantiates. -/
def processRequest {Doc : Type} (lib : GraphQLLib Doc)
    (config : PipelineConfig)
    (willExecuteOperation : Option (Operation → Option QueryError))
    (sha256 : String → String) (cache : Cache) (setFails : Bool)
    (request : GraphQLRequest) : PipelineOutcome :=
  match initializeDataSourcesCheck config with
  | some e => ⟨.error e, [], [], false⟩
  | none =>
    match resolveQuery config sha256 cache request with
    | .error e => ⟨.error e, [], [], false⟩
    | .ok rq =>
      let body := runParsedQuery lib config willExecuteOperation rq.query
        request.operationName request.variableValues
      ⟨body.1, .requestDidStart :: body.2 ++ [.requestDidEnd],
        rq.writes, setFails && rq.persistedQueryRegister⟩

/-! ## The HTTP-query coordinator (`runHttpQuery`) -/

/-- Escape of one character under `JSON.stringify`. -/
def jsonEscapeChar (c : Char) : String :=
  if c = '"' then "\\\""
  else if c = '\\' then "\\\\"
  else if c = '\n' then "\\n"
  else if c = '\t' then "\\t"
  else if c = '\r' then "\\r"
  else String.singleton c

/-- `JSON.stringify` of a string value. -/
def renderString (s : String) : String :=
  "\"" ++ String.join (s.toList.map jsonEscapeChar) ++ "\""

mutual

/-- `JSON.stringify` of a `GValue`. -/
def renderGValue : GValue → String
  | .null => "null"
  | .bool b => if b then "true" else "false"
  | .num n => toString n
  | .str s => renderString s
  | .arr elems => "[" ++ renderGValueList elems ++ "]"
  | .obj fields => "\x7b" ++ renderGValueFields fields ++ "\x7d"

/-- Comma-joined serialization of array elements. -/
def renderGValueList : List GValue → String
  | [] => ""
  | [v] => renderGValue v
  | v :: vs => renderGValue v ++ "," ++ renderGValueList vs

/-- Comma-joined serialization of object fields. -/
def renderGValueFields : List (String × GValue) → String
  | [] => ""
  | [(k, v)] => renderString k ++ ":" ++ renderGValue v
  | (k, v) :: fs =>
    renderString k ++ ":" ++ renderGValue v ++ "," ++ renderGValueFields fs

end

/-- `JSON.stringify` of a formatted error object. -/
def renderGqlError (e : GqlError) : String :=
  "\x7b\"message\":" ++ renderString e.message ++ "\x7d"

/-- `JSON.stringify` of the `\x7berrors: [...]\x7d` body built by
`throwHttpGraphQLError`. -/
def renderErrorsBody (errs : List GqlError) : String :=
  "\x7b\"errors\":[" ++ String.intercalate "," (errs.map renderGqlError) ++ "]\x7d"

/-- `JSON.stringify` of a set of extension fields. -/
def renderExtensionFields (fs : List (String × GValue)) : String :=
  "\x7b" ++ String.intercalate ","
    (fs.map (fun f => renderString f.1 ++ ":" ++ renderGValue f.2)) ++ "\x7d"

/-- `JSON.stringify` of a `GraphQLResponse`. The object literal built in
`sendResponse` lists `errors`, `data`, `extensions` in that insertion
order, and `JSON.stringify` omits the keys whose value is undefined. -/
def renderResponse (r : GraphQLResponse) : String :=
  let parts : List String :=
    (match r.errors with
      | some es =>
        ["\"errors\":[" ++ String.intercalate "," (es.map renderGqlError) ++ "]"]
      | none => []) ++
    (match r.data with
      | some d => ["\"data\":" ++ renderGValue d]
      | none => []) ++
    (match r.extensions with
      | some ex => ["\"extensions\":" ++ renderExtensionFields ex]
      | none => [])
  "\x7b" ++ String.intercalate "," parts ++ "\x7d"

/-- `prettyJSONStringify`: the serialized value followed by a newline. -/
def prettyJSONStringify (body : String) : String := body ++ "\n"

/-- The transport-level error thrown past the pipeline: status code,
message, the `isGraphQLError` marker and extra headers. -/
structure HttpQueryError where
  statusCode : Nat
  message : String
  isGraphQLError : Bool := false
  headers : List (String × String) := []
  deriving Repr, DecidableEq

/-- The message each error is mapped to by `formatApolloErrors`
(`apollo-server-errors`, external): its carried message. -/
def queryErrorMessage : QueryError → String
  | .persistedQueryNotSupported => "PersistedQueryNotSupported"
  | .persistedQueryNotFound => "PersistedQueryNotFound"
  | .invalidGraphQLRequest m => m
  | .httpError _ m _ _ => m
  | .configurationError m => m

/-- `formatApolloErrors` applied to one error. -/
def formatApolloError (e : QueryError) : GqlError :=
  ⟨queryErrorMessage e⟩

/-- `throwHttpGraphQLError`: an `HttpQueryError` whose message is the
pretty-printed `\x7berrors: [...]\x7d` body, marked `isGraphQLError` and
carrying the JSON content type. -/
def throwHttpGraphQLError (statusCode : Nat) (errors : List GqlError) :
    HttpQueryError :=
  ⟨statusCode, prettyJSONStringify (renderErrorsBody errors), true,
    [("Content-Type", "application/json")]⟩

/-- The transport-supplied `query` member of one request body: absent, a
string, a truthy non-string value — with the special case of a parsed
graphql-js document, recognized by `kind === \"Document\"` — or a falsy
non-string value (JSON `null`, `0`, `false`). The distinction matters
because the queries-must-be-strings guard is truthiness-gated
(`if (queryString && typeof queryString !== \"string\")`): a falsy
non-string skips it and flows into the pipeline, where it fails the
`else if (query)` truthiness test exactly like an absent query. -/
inductive QueryParam where
  | absent
  | str (s : String)
  | nonString (isDocumentKind : Bool)
  | nonStringFalsy
  deriving Repr, DecidableEq

/-- The transport-supplied `variables` member: absent, a string still to be
JSON-decoded, or an already-parsed value. -/
inductive VariablesParam where
  | absent
  | str (s : String)
  | val (v : GValue)
  deriving Repr

/-- The transport-supplied `extensions` member: absent, a string (the GET
encoding), or an already-parsed object (the POST encoding). -/
inductive ExtensionsParam where
  | absent
  | str (s : String)
  | val (e : RequestExtensions)
  deriving Repr, DecidableEq

/-- One member of the request payload handed to `runHttpQuery`. -/
structure HttpRequestParams where
  query : QueryParam := .absent
  operationName : Option String := none
  variableValues : VariablesParam := .absent
  extensions : ExtensionsParam := .absent
  deriving Repr

/-- The resolved `cacheControl` option: `false`, `true` (proxy mode: no
header calculation, no stripping) or the defaulted/merged option object
carrying `stripFormattedExtensions` and `calculateHttpHeaders` (both
`true` when the option was left unset). -/
inductive CacheControlSetting where
  | off
  | proxy
  | options (stripFormattedExtensions calculateHttpHeaders : Bool)
  deriving Repr, DecidableEq

/-- The resolved `GraphQLOptions` fields that produce observable behavior
in the model. -/
structure GraphQLOptions where
  persistedQueries : Bool := false
  cacheControl : CacheControlSetting := .options true true
  dataSources : Option (List String) := none
  contextKeys : List String := []
  extFormat : List (String × GValue) := []
  formatResponse : Option (GraphQLResponse → GraphQLResponse) := none
  debug : Bool := false

/-- The processor configuration `runHttpQuery` builds: it performs
data-source initialization itself and passes no factory down. -/
def pipelineConfigOfOptions (opts : GraphQLOptions) : PipelineConfig :=
  { persistedQueries := opts.persistedQueries
    dataSources := none
    contextKeys := opts.contextKeys
    extFormat := opts.extFormat
    formatResponse := opts.formatResponse }

/-- The long 400 message for a request whose `query` is a parsed
graphql-js document rather than a string. -/
def documentQueryMessage : String :=
  "GraphQL queries must be strings. It looks like you\x27re sending the internal graphql-js representation of a parsed query in your request instead of a request in the GraphQL query language. You can convert an AST to a string using the `print` function from `graphql`, or use a client like `apollo-client` which converts the internal representation to a string for you."

/-- The `willExecuteOperation` hook `runHttpQuery` installs on GET
requests: resolved non-`query` operations fail with 405 / `Allow: POST`. -/
def getMethodHook : Option (Operation → Option QueryError) :=
  some (fun op =>
    if op.kind ≠ .query then
      some (.httpError 405 "GET supports only query operation" false
        [("Allow", "POST")])
    else none)

/-- Processing of one payload member inside `runHttpQuery`'s map: GET
extensions decoding, the query-must-be-a-string check, string-variables
decoding, data-source initialization on the per-request context, then the
pipeline invocation (with the GET-only `willExecuteOperation` hook).
Errors thrown before the processor runs yield an outcome with no
lifecycle events. A POST member whose `extensions` is still a string
reaches the pipeline without a `persistedQuery` block, since a string has
no such property. A falsy non-string `query` skips the truthiness-gated
string check and is handed to the pipeline, where it fails every
truthiness test like an absent query; it is mapped to `none` here, which
is faithful on every path the theorems use (no persisted-query extension).
The one divergence: a falsy non-string combined with a persisted-query
extension passes the `query === undefined` register guard in real JS and
makes the crypto digest throw a `TypeError` on non-string input, a crash
the embedding does not represent. -/
def handleRequest {Doc : Type} (lib : GraphQLLib Doc) (opts : GraphQLOptions)
    (jsonParseVariables : String → Option GValue)
    (jsonParseExtensions : String → Option RequestExtensions)
    (sha256 : String → String) (cache : Cache) (setFails : Bool)
    (isGetRequest : Bool) (p : HttpRequestParams) : PipelineOutcome :=
  let extResult : Except QueryError (Option RequestExtensions) :=
    match p.extensions with
    | .absent => .ok none
    | .str s =>
      if isGetRequest then
        match jsonParseExtensions s with
        | some e => .ok (some e)
        | none => .error (.httpError 400 "Extensions are invalid JSON." false [])
      else .ok none
    | .val e => .ok (some e)
  match extResult with
  | .error e => ⟨.error e, [], [], false⟩
  | .ok exts =>
    match p.query with
    | .nonString true =>
      ⟨.error (.httpError 400 documentQueryMessage false []), [], [], false⟩
    | .nonString false =>
      ⟨.error (.httpError 400 "GraphQL queries must be strings." false []),
        [], [], false⟩
    | q =>
      let queryString : Option String :=
        match q with
        | .str s => some s
        | _ => none
      let varsResult : Except QueryError (Option GValue) :=
        match p.variableValues with
        | .absent => .ok none
        | .str s =>
          match jsonParseVariables s with
          | some v => .ok (some v)
          | none => .error (.httpError 400 "Variables are invalid JSON." false [])
        | .val v => .ok (some v)
      match varsResult with
      | .error e => ⟨.error e, [], [], false⟩
      | .ok vars =>
        if opts.dataSources.isSome && opts.contextKeys.contains "dataSources" then
          ⟨.error (.configurationError
            "Please use the dataSources config option instead of putting dataSources on the context yourself."),
            [], [], false⟩
        else
          let hook := if isGetRequest then getMethodHook else none
          processRequest lib (pipelineConfigOfOptions opts) hook sha256 cache
            setFails
            { query := queryString, operationName := p.operationName,
              variableValues := vars, extensions := exts }

/-- Mapping of a failed single (non-batched) member onto the transport
error `runHttpQuery` ends with: `InvalidGraphQLRequestError` becomes a bare
400; the APQ protocol errors become 200-status GraphQL-shaped errors; an
`HttpQueryError` passes through; any other thrown error reaches the
`Promise.all` catch and becomes a formatted 500. -/
def classifySingleError (e : QueryError) : HttpQueryError :=
  match e with
  | .invalidGraphQLRequest m => ⟨400, m, false, []⟩
  | .persistedQueryNotSupported => throwHttpGraphQLError 200 [formatApolloError e]
  | .persistedQueryNotFound => throwHttpGraphQLError 200 [formatApolloError e]
  | .httpError s m g h => ⟨s, m, g, h⟩
  | .configurationError m => throwHttpGraphQLError 500 [⟨m⟩]

/-- The cache-control post-processing of one response: delete the
`cacheControl` extension, and the `extensions` key itself once empty. -/
def stripCacheControlExtension (r : GraphQLResponse) : GraphQLResponse :=
  match r.extensions with
  | some exts =>
    let remaining := exts.filter (fun f => f.1 ≠ "cacheControl")
    if remaining.isEmpty then { r with extensions := none }
    else { r with extensions := some remaining }
  | none => r

/-- The fan-in of the member results (the `Promise.all` of the mapped
requests and its catch): in a batch every failed member is isolated into an
`\x7berrors: [...]\x7d` slot and the batch as a whole succeeds; a single
member's failure is classified into the transport error. -/
def gatherResponses (isBatch : Bool)
    (results : List (Except QueryError GraphQLResponse)) :
    Except HttpQueryError (List GraphQLResponse) :=
  if isBatch then
    .ok (results.map (fun r =>
      match r with
      | .ok resp => resp
      | .error e => { errors := some [formatApolloError e] }))
  else
    match results with
    | .error e :: _ => .error (classifySingleError e)
    | .ok resp :: _ => .ok [resp]
    | [] => .ok []

/-- The wire envelope `runHttpQuery` produces on success. -/
structure HttpQueryResponse where
  graphqlResponse : String
  headers : List (String × String)
  deriving Repr, DecidableEq

/-- HTTP method of the incoming transport request. -/
inductive HttpMethod where
  | get
  | post
  | other (name : String)
  deriving Repr, DecidableEq

/-- The request payload: a single operation object or a batch array. -/
inductive HttpQueryPayload where
  | single (p : HttpRequestParams)
  | batch (ps : List HttpRequestParams)

/-- The body of `runHttpQuery` once the method checks passed: run every
member (batch members isolate their failures into `\x7berrors\x7d` slots; a
single member's failure selects the transport error), apply cache-control
header calculation and extension stripping, then either fail 400 on a
data-less single error response or emit the serialized 200 envelope with
`Content-Type` and `Content-Length`. `calcCacheHeaders` stands for
`calculateCacheControlHeaders` of the `./caching` module, which is not
among the sources. -/
def runHttpQueryResolved {Doc : Type} (lib : GraphQLLib Doc)
    (opts : GraphQLOptions)
    (jsonParseVariables : String → Option GValue)
    (jsonParseExtensions : String → Option RequestExtensions)
    (sha256 : String → String)
    (calcCacheHeaders : List GraphQLResponse → List (String × String))
    (cache : Cache) (setFails : Bool) (isGetRequest : Bool)
    (payload : HttpQueryPayload) : Except HttpQueryError HttpQueryResponse :=
  let isBatch : Bool := match payload with
    | .batch _ => true
    | .single _ => false
  let members : List HttpRequestParams := match payload with
    | .batch ps => ps
    | .single p => [p]
  let results := members.map (fun p =>
    (handleRequest lib opts jsonParseVariables jsonParseExtensions sha256
      cache setFails isGetRequest p).result)
  match gatherResponses isBatch results with
  | .error e => .error e
  | .ok responses =>
    let baseHeaders := [("Content-Type", "application/json")]
    let processed : List GraphQLResponse × List (String × String) :=
      match opts.cacheControl with
      | .off => (responses, baseHeaders)
      | .proxy => (responses, baseHeaders)
      | .options strip doCalc =>
        let headers :=
          if doCalc then baseHeaders ++ calcCacheHeaders responses
          else baseHeaders
        let responses :=
          if strip then responses.map stripCacheControlExtension
          else responses
        (responses, headers)
    if !isBatch then
      match processed.1 with
      | r :: _ =>
        if r.errors.isSome && r.data.isNone then
          .error (throwHttpGraphQLError 400 (r.errors.getD []))
        else
          let stringified := prettyJSONStringify (renderResponse r)
          .ok ⟨stringified,
            processed.2 ++ [("Content-Length", toString stringified.utf8ByteSize)]⟩
      | [] =>
        -- unreachable: the non-batch path always carries exactly one member
        .error ⟨500, "", false, []⟩
    else
      let stringified := prettyJSONStringify
        ("[" ++ String.intercalate "," (processed.1.map renderResponse) ++ "]")
      .ok ⟨stringified,
        processed.2 ++ [("Content-Length", toString stringified.utf8ByteSize)]⟩

/-- `runHttpQuery`: the method/body dispatch (only GET and POST are
accepted; a missing or empty payload fails 500 for POST and 400 for GET,
an empty batch array having no keys either), then the resolved body. -/
def runHttpQuery {Doc : Type} (lib : GraphQLLib Doc) (opts : GraphQLOptions)
    (jsonParseVariables : String → Option GValue)
    (jsonParseExtensions : String → Option RequestExtensions)
    (sha256 : String → String)
    (calcCacheHeaders : List GraphQLResponse → List (String × String))
    (cache : Cache) (setFails : Bool)
    (method : HttpMethod) (payload : Option HttpQueryPayload) :
    Except HttpQueryError HttpQueryResponse :=
  match method, payload with
  | .post, none =>
    .error ⟨500, "POST body missing. Did you forget use body-parser middleware?",
      false, []⟩
  | .post, some (.batch []) =>
    .error ⟨500, "POST body missing. Did you forget use body-parser middleware?",
      false, []⟩
  | .post, some pl =>
    runHttpQueryResolved lib opts jsonParseVariables jsonParseExtensions sha256
      calcCacheHeaders cache setFails false pl
  | .get, none => .error ⟨400, "GET query missing.", false, []⟩
  | .get, some (.batch []) => .error ⟨400, "GET query missing.", false, []⟩
  | .get, some pl =>
    runHttpQueryResolved lib opts jsonParseVariables jsonParseExtensions sha256
      calcCacheHeaders cache setFails true pl
  | .other _, _ =>
    .error ⟨405, "Apollo Server supports only GET/POST requests.", false,
      [("Allow", "GET, POST")]⟩

/-! ## Concrete instantiations for witnesses and counterexamples -/

/-- A toy document type to instantiate the external `graphql` library on
concrete inputs. -/
structure TestDoc where
  text : String
  deriving Repr, DecidableEq

/-- A concrete `graphql` library instance: `\x7b testString \x7d` parses to an
anonymous query whose execution resolves `testString` to `"it works"`;
`mutation M \x7b go \x7d` parses to a mutation; everything else is a syntax
error. Validation accepts every parsed document. -/
def testLib : GraphQLLib TestDoc where
  parse s :=
    if s = "\x7b testString \x7d" ∨ s = "mutation M \x7b go \x7d" then .ok ⟨s⟩
    else .error ("Syntax Error: " ++ s)
  validate _ := []
  getOperationAST d _ :=
    if d.text = "mutation M \x7b go \x7d" then some ⟨.mutation, some "M"⟩
    else some ⟨.query, none⟩
  execute d _ _ :=
    if d.text = "\x7b testString \x7d" then
      .ok { data := some (.obj [("testString", .str "it works")]) }
    else .ok { data := some .null }

/-- A concrete stand-in for the sha256 hex digest. -/
def testSha (s : String) : String := "sha-" ++ s

/-- A concrete stand-in for `JSON.parse` on variables: recognizes one
object literal and the empty object. -/
def testParseVariables (s : String) : Option GValue :=
  if s = "\x7b\"echo\":\"world\"\x7d" then some (.obj [("echo", .str "world")])
  else if s = "\x7b\x7d" then some (.obj [])
  else none

/-- A concrete stand-in for `JSON.parse` on extensions. -/
def testParseExtensions (s : String) : Option RequestExtensions :=
  if s = "\x7b\x7d" then some {} else none

/-- The HTTP status of a coordinator outcome: the carried status of a
thrown `HttpQueryError`, and 200 for a returned envelope. -/
def resultStatus : Except HttpQueryError HttpQueryResponse → Nat
  | .error e => e.statusCode
  | .ok _ => 200

/-! ## Claims -/

/-- Auxiliary: a successful RESOLVE_QUERY stage schedules a cache write
exactly on the persisted-query-register path. -/
theorem resolveQuery_writes_empty_iff (config : PipelineConfig)
    (sha256 : String → String) (cache : Cache) (request : GraphQLRequest)
    (rq : ResolvedQuery)
    (h : resolveQuery config sha256 cache request = .ok rq) :
    rq.writes.isEmpty = !rq.persistedQueryRegister := by
  unfold resolveQuery at h
  repeat' split at h
  all_goals simp_all
  all_goals (cases h; rfl)

/-- C5: the persisted-query-register cache write is fire-and-forget — the
returned response, the thrown error, the lifecycle events and the scheduled
writes of `processRequest` are identical whether the write succeeds or
fails; a failing write leaves only the logged warning, which occurs exactly
when a write was scheduled. -/
theorem persisted_query_write_fire_and_forget {Doc : Type}
    (lib : GraphQLLib Doc) (config : PipelineConfig)
    (hook : Option (Operation → Option QueryError))
    (sha256 : String → String) (cache : Cache) (request : GraphQLRequest) :
    (processRequest lib config hook sha256 cache true request).result
        = (processRequest lib config hook sha256 cache false request).result
      ∧ (processRequest lib config hook sha256 cache true request).events
        = (processRequest lib config hook sha256 cache false request).events
      ∧ (processRequest lib config hook sha256 cache true request).scheduledWrites
        = (processRequest lib config hook sha256 cache false request).scheduledWrites
      ∧ (processRequest lib config hook sha256 cache false request).warnLogged
        = false
      ∧ (processRequest lib config hook sha256 cache true request).warnLogged
        = !(processRequest lib config hook sha256 cache true request).scheduledWrites.isEmpty
      := by
  cases h1 : initializeDataSourcesCheck config with
  | some e => simp [processRequest, h1]
  | none =>
    cases h2 : resolveQuery config sha256 cache request with
    | error e => simp [processRequest, h1, h2]
    | ok rq =>
      have hw := resolveQuery_writes_empty_iff config sha256 cache request rq h2
      simp [processRequest, h1, h2, hw]

/-- Auxiliary: with no `willExecuteOperation` hook installed (the
requestPipeline.ts configuration), every path through the parse → validate
→ execute → format body ends in `sendResponse`, i.e. dispatches
`willSendResponse`. -/
theorem runParsedQuery_willSendResponse {Doc : Type} (lib : GraphQLLib Doc)
    (config : PipelineConfig) (q : String) (opName : Option String)
    (vars : Option GValue) :
    PEvent.willSendResponse ∈ (runParsedQuery lib config none q opName vars).2 := by
  unfold runParsedQuery
  repeat' split
  all_goals simp_all

/-- C1 counterexample: a version-1 persisted-query request processed by a
pipeline with no persisted-query cache configured throws
`PersistedQueryNotSupported` from RESOLVE_QUERY before
`extensionStack.requestDidStart` runs, so the invocation completes with no
lifecycle event at all — neither the `willSendResponse` dispatch nor the
whole-request did-start/did-end wrapper is invoked. -/
theorem processRequest_resolve_failure_skips_willSendResponse :
    (processRequest testLib {} none testSha [] false
        { query := none,
          extensions := some { persistedQuery := some ⟨1, "abc"⟩ } }).events = []
      ∧ PEvent.willSendResponse ∉
        (processRequest testLib {} none testSha [] false
          { query := none,
            extensions := some { persistedQuery := some ⟨1, "abc"⟩ } }).events
      ∧ PEvent.requestDidStart ∉
        (processRequest testLib {} none testSha [] false
          { query := none,
            extensions := some { persistedQuery := some ⟨1, "abc"⟩ } }).events := by
  refine ⟨rfl, ?_, ?_⟩ <;> · intro hmem; exact absurd hmem (by decide)

/-- C1 (amended): once the RESOLVE_QUERY stage (data-source initialization
and persisted-query resolution) has succeeded, every code path through the
state machine — parse failure, validation failure, execution failure or
success — invokes the `willSendResponse` dispatch and both ends of the
whole-request did-start/did-end wrapper before `processRequest` completes.
Failures inside RESOLVE_QUERY itself are thrown before the wrapper starts
and invoke neither. -/
theorem processRequest_drains_willSendResponse {Doc : Type}
    (lib : GraphQLLib Doc) (config : PipelineConfig)
    (sha256 : String → String) (cache : Cache) (setFails : Bool)
    (request : GraphQLRequest) (rq : ResolvedQuery)
    (hds : initializeDataSourcesCheck config = none)
    (hrq : resolveQuery config sha256 cache request = .ok rq) :
    PEvent.requestDidStart
        ∈ (processRequest lib config none sha256 cache setFails request).events
      ∧ PEvent.willSendResponse
        ∈ (processRequest lib config none sha256 cache setFails request).events
      ∧ PEvent.requestDidEnd
        ∈ (processRequest lib config none sha256 cache setFails request).events := by
  have hmid := runParsedQuery_willSendResponse lib config rq.query
    request.operationName request.variableValues
  simp [processRequest, hds, hrq]
  exact hmid

/-- C1 witness: a literal-query request resolves successfully and its
processing fires the wrapper and the `willSendResponse` dispatch. -/
theorem processRequest_drains_willSendResponse_witness :
    PEvent.requestDidStart
        ∈ (processRequest testLib {} none testSha [] false
            { query := some "\x7b testString \x7d" }).events
      ∧ PEvent.willSendResponse
        ∈ (processRequest testLib {} none testSha [] false
            { query := some "\x7b testString \x7d" }).events
      ∧ PEvent.requestDidEnd
        ∈ (processRequest testLib {} none testSha [] false
            { query := some "\x7b testString \x7d" }).events :=
  processRequest_drains_willSendResponse testLib {} testSha [] false
    { query := some "\x7b testString \x7d" }
    ⟨"\x7b testString \x7d", false, false, []⟩ rfl rfl

/-- C4 counterexample: on a hash/query mismatch the code throws
`InvalidGraphQLRequestError` with message `"provided sha does not match
query"`, not the message `"provided hash does not match query"` stated by
the claim. -/
theorem apq_mismatch_message_counterexample :
    (processRequest testLib { persistedQueries := true } none testSha [] false
        { query := some "\x7b testString \x7d",
          extensions := some { persistedQuery := some ⟨1, "deadbeef"⟩ } }).result
        = .error (.invalidGraphQLRequest "provided sha does not match query")
      ∧ (processRequest testLib { persistedQueries := true } none testSha [] false
        { query := some "\x7b testString \x7d",
          extensions := some { persistedQuery := some ⟨1, "deadbeef"⟩ } }).result
        ≠ .error (.invalidGraphQLRequest "provided hash does not match query") := by
  refine ⟨rfl, ?_⟩
  have h : (processRequest testLib { persistedQueries := true } none testSha [] false
      { query := some "\x7b testString \x7d",
        extensions := some { persistedQuery := some ⟨1, "deadbeef"⟩ } }).result
      = .error (.invalidGraphQLRequest "provided sha does not match query") := rfl
  rw [h]
  intro hc
  injection hc with hc
  injection hc with hc
  exact absurd hc (by decide)

/-- C4 (amended): whenever a literal query and a version-1 persisted-query
hash are both supplied against a configured persisted-query cache and the
recomputed fingerprint differs from the supplied hash, `processRequest`
throws `InvalidGraphQLRequestError` with message `"provided sha does not
match query"`, regardless of the cache contents, and schedules no cache
write. -/
theorem apq_hash_mismatch {Doc : Type} (lib : GraphQLLib Doc)
    (config : PipelineConfig) (hook : Option (Operation → Option QueryError))
    (sha256 : String → String) (cache : Cache) (setFails : Bool)
    (q hsh : String) (opName : Option String) (vars : Option GValue)
    (hpq : config.persistedQueries = true)
    (hds : initializeDataSourcesCheck config = none)
    (hne : computeQueryHash sha256 q ≠ hsh) :
    (processRequest lib config hook sha256 cache setFails
          { query := some q, operationName := opName, variableValues := vars,
            extensions := some { persistedQuery := some ⟨1, hsh⟩ } }).result
        = .error (.invalidGraphQLRequest "provided sha does not match query")
      ∧ (processRequest lib config hook sha256 cache setFails
          { query := some q, operationName := opName, variableValues := vars,
            extensions := some { persistedQuery := some ⟨1, hsh⟩ } }).scheduledWrites
        = [] := by
  have hrq : resolveQuery config sha256 cache
      { query := some q, operationName := opName, variableValues := vars,
        extensions := some { persistedQuery := some ⟨1, hsh⟩ } }
      = .error (.invalidGraphQLRequest "provided sha does not match query") := by
    simp [resolveQuery, hpq, Ne.symm hne]
  simp [processRequest, hds, hrq]

/-- C4 witness: concrete mismatch between the supplied hash and the
fingerprint of the supplied query. -/
theorem apq_hash_mismatch_witness :
    ({ persistedQueries := true } : PipelineConfig).persistedQueries = true
      ∧ initializeDataSourcesCheck { persistedQueries := true } = none
      ∧ computeQueryHash testSha "\x7b testString \x7d" ≠ "deadbeef"
      ∧ ((processRequest testLib { persistedQueries := true } none testSha
            [("apq:deadbeef", "stale")] false
            { query := some "\x7b testString \x7d", operationName := none,
              variableValues := none,
              extensions := some { persistedQuery := some ⟨1, "deadbeef"⟩ } }).result
          = .error (.invalidGraphQLRequest "provided sha does not match query")
        ∧ (processRequest testLib { persistedQueries := true } none testSha
            [("apq:deadbeef", "stale")] false
            { query := some "\x7b testString \x7d", operationName := none,
              variableValues := none,
              extensions := some { persistedQuery := some ⟨1, "deadbeef"⟩ } }).scheduledWrites
          = []) :=
  ⟨rfl, rfl, by decide,
    apq_hash_mismatch testLib { persistedQueries := true } none testSha
      [("apq:deadbeef", "stale")] false "\x7b testString \x7d" "deadbeef" none none
      rfl rfl (by decide)⟩

/-- C9: a persisted-query lookup that retrieves the empty string behaves
exactly like a missing entry — `if (query)` is a truthiness test — and the
pipeline throws `PersistedQueryNotFound` in both cases. -/
theorem apq_empty_cached_text_not_found {Doc : Type} (lib : GraphQLLib Doc)
    (config : PipelineConfig) (hook : Option (Operation → Option QueryError))
    (sha256 : String → String) (cache : Cache) (setFails : Bool)
    (hsh : String) (opName : Option String) (vars : Option GValue)
    (hpq : config.persistedQueries = true)
    (hds : initializeDataSourcesCheck config = none)
    (hlookup : cacheGet cache ("apq:" ++ hsh) = some ""
      ∨ cacheGet cache ("apq:" ++ hsh) = none) :
    (processRequest lib config hook sha256 cache setFails
        { query := none, operationName := opName, variableValues := vars,
          extensions := some { persistedQuery := some ⟨1, hsh⟩ } }).result
      = .error .persistedQueryNotFound := by
  have hrq : resolveQuery config sha256 cache
      { query := none, operationName := opName, variableValues := vars,
        extensions := some { persistedQuery := some ⟨1, hsh⟩ } }
      = .error .persistedQueryNotFound := by
    rcases hlookup with h | h <;> simp [resolveQuery, hpq, h]
  simp [processRequest, hds, hrq]

/-- C9 witness: a cache that stores the empty string under the hash key. -/
theorem apq_empty_cached_text_not_found_witness :
    ({ persistedQueries := true } : PipelineConfig).persistedQueries = true
      ∧ initializeDataSourcesCheck { persistedQueries := true } = none
      ∧ cacheGet [("apq:h1", "")] ("apq:" ++ "h1") = some ""
      ∧ (processRequest testLib { persistedQueries := true } none testSha
          [("apq:h1", "")] false
          { query := none, operationName := none, variableValues := none,
            extensions := some { persistedQuery := some ⟨1, "h1"⟩ } }).result
        = .error .persistedQueryNotFound :=
  ⟨rfl, rfl, rfl,
    apq_empty_cached_text_not_found testLib { persistedQueries := true } none
      testSha [("apq:h1", "")] false "h1" none none rfl rfl (Or.inl rfl)⟩

/-- C2 counterexample: for the empty query string the round trip and the
direct request disagree. Registering `("" , sha256 "")` succeeds (the
register guard tests `query === undefined`, so the empty string is
fingerprinted and stored), but the later hash-only request retrieves the
empty string, fails the `if (query)` truthiness test and throws
`PersistedQueryNotFound`, while the direct request with the literal empty
query throws `InvalidGraphQLRequestError "Must provide query string."`. -/
theorem apq_round_trip_counterexample :
    (processRequest testLib { persistedQueries := true } none testSha
        (applyWrites (processRequest testLib { persistedQueries := true } none
            testSha [] false
            { query := some "",
              extensions := some { persistedQuery := some ⟨1, testSha ""⟩ } }).scheduledWrites
          [])
        false
        { query := none,
          extensions := some { persistedQuery := some ⟨1, testSha ""⟩ } }).result
        = .error .persistedQueryNotFound
      ∧ (processRequest testLib { persistedQueries := true } none testSha [] false
          { query := some "" }).result
        = .error (.invalidGraphQLRequest "Must provide query string.")
      ∧ (processRequest testLib { persistedQueries := true } none testSha
          (applyWrites (processRequest testLib { persistedQueries := true } none
              testSha [] false
              { query := some "",
                extensions := some { persistedQuery := some ⟨1, testSha ""⟩ } }).scheduledWrites
            [])
          false
          { query := none,
            extensions := some { persistedQuery := some ⟨1, testSha ""⟩ } }).result
        ≠ (processRequest testLib { persistedQueries := true } none testSha [] false
            { query := some "" }).result := by
  refine ⟨rfl, rfl, ?_⟩
  intro hc
  have hc' : (Except.error QueryError.persistedQueryNotFound
        : Except QueryError GraphQLResponse)
      = .error (.invalidGraphQLRequest "Must provide query string.") := hc
  injection hc' with h2
  cases h2

/-- C2 (amended): for every non-empty query string `Q`, registering
`(hash = sha256 Q, query = Q)` — whose scheduled fire-and-forget write is
applied to the cache — and then requesting `(hash = sha256 Q)` without a
query yields the same result as processing the literal query `Q`
directly. -/
theorem apq_round_trip {Doc : Type} (lib : GraphQLLib Doc)
    (config : PipelineConfig) (sha256 : String → String) (cache : Cache)
    (Q : String) (opName : Option String) (vars : Option GValue)
    (hQ : Q ≠ "")
    (hpq : config.persistedQueries = true)
    (hds : initializeDataSourcesCheck config = none) :
    (processRequest lib config none sha256
        (applyWrites (processRequest lib config none sha256 cache false
            { query := some Q, operationName := opName,
              variableValues := vars,
              extensions := some
                { persistedQuery := some ⟨1, computeQueryHash sha256 Q⟩ } }).scheduledWrites
          cache)
        false
        { query := none, operationName := opName, variableValues := vars,
          extensions := some
            { persistedQuery := some ⟨1, computeQueryHash sha256 Q⟩ } }).result
      = (processRequest lib config none sha256 cache false
          { query := some Q, operationName := opName,
            variableValues := vars }).result := by
  have hreg : resolveQuery config sha256 cache
      { query := some Q, operationName := opName, variableValues := vars,
        extensions := some
          { persistedQuery := some ⟨1, computeQueryHash sha256 Q⟩ } }
      = .ok ⟨Q, false, true, [("apq:" ++ computeQueryHash sha256 Q, Q)]⟩ := by
    simp [resolveQuery, hpq]
  have hwrites : (processRequest lib config none sha256 cache false
      { query := some Q, operationName := opName, variableValues := vars,
        extensions := some
          { persistedQuery := some ⟨1, computeQueryHash sha256 Q⟩ } }).scheduledWrites
      = [("apq:" ++ computeQueryHash sha256 Q, Q)] := by
    simp [processRequest, hds, hreg]
  rw [hwrites]
  have hget : cacheGet
      (applyWrites [("apq:" ++ computeQueryHash sha256 Q, Q)] cache)
      ("apq:" ++ computeQueryHash sha256 Q) = some Q := by
    simp [applyWrites, cacheSet, cacheGet]
  have hrq2 : resolveQuery config sha256
      (applyWrites [("apq:" ++ computeQueryHash sha256 Q, Q)] cache)
      { query := none, operationName := opName, variableValues := vars,
        extensions := some
          { persistedQuery := some ⟨1, computeQueryHash sha256 Q⟩ } }
      = .ok ⟨Q, true, false, []⟩ := by
    simp [resolveQuery, hpq, hget, hQ]
  have hrqd : resolveQuery config sha256 cache
      { query := some Q, operationName := opName, variableValues := vars }
      = .ok ⟨Q, false, false, []⟩ := by
    simp [resolveQuery, hQ]
  simp [processRequest, hds, hrq2, hrqd]

/-- C2 witness: the round trip on the concrete test query. -/
theorem apq_round_trip_witness :
    "\x7b testString \x7d" ≠ ""
      ∧ ({ persistedQueries := true } : PipelineConfig).persistedQueries = true
      ∧ initializeDataSourcesCheck { persistedQueries := true } = none
      ∧ (processRequest testLib { persistedQueries := true } none testSha
          (applyWrites (processRequest testLib { persistedQueries := true }
              none testSha [] false
              { query := some "\x7b testString \x7d", operationName := none,
                variableValues := none,
                extensions := some
                  { persistedQuery :=
                      some ⟨1, computeQueryHash testSha "\x7b testString \x7d"⟩ } }).scheduledWrites
            [])
          false
          { query := none, operationName := none, variableValues := none,
            extensions := some
              { persistedQuery :=
                  some ⟨1, computeQueryHash testSha "\x7b testString \x7d"⟩ } }).result
        = (processRequest testLib { persistedQueries := true } none testSha []
            false
            { query := some "\x7b testString \x7d", operationName := none,
              variableValues := none }).result :=
  ⟨by decide, rfl, rfl,
    apq_round_trip testLib { persistedQueries := true } testSha []
      "\x7b testString \x7d" none none (by decide) rfl rfl⟩

/-- C3: batch isolation. For a batched payload `[A, B]` whose member `A`
fails and whose member `B` succeeds with result `rB`, the fan-in produces
the two-slot array `[\x7berrors: [...]\x7d, rB]` — slot 0 carrying `A`'s
formatted error, slot 1 carrying `B`'s result — and `runHttpQuery` returns
a 200 envelope rather than throwing an HTTP-level error. -/
theorem batch_isolation {Doc : Type} (lib : GraphQLLib Doc)
    (opts : GraphQLOptions)
    (jV : String → Option GValue) (jE : String → Option RequestExtensions)
    (sha256 : String → String)
    (calcHeaders : List GraphQLResponse → List (String × String))
    (cache : Cache) (setFails : Bool)
    (A B : HttpRequestParams) (eA : QueryError) (rB : GraphQLResponse)
    (hcc : opts.cacheControl = .off)
    (hA : (handleRequest lib opts jV jE sha256 cache setFails false A).result
      = .error eA)
    (hB : (handleRequest lib opts jV jE sha256 cache setFails false B).result
      = .ok rB) :
    gatherResponses true
        [(handleRequest lib opts jV jE sha256 cache setFails false A).result,
          (handleRequest lib opts jV jE sha256 cache setFails false B).result]
      = .ok [{ errors := some [formatApolloError eA] }, rB]
    ∧ resultStatus (runHttpQuery lib opts jV jE sha256 calcHeaders cache
        setFails .post (some (.batch [A, B]))) = 200 := by
  constructor
  · simp [gatherResponses, hA, hB]
  · simp [runHttpQuery, runHttpQueryResolved, gatherResponses, hA, hB, hcc,
      resultStatus]

/-- C3 witness: a malformed member (non-string query) batched with a valid
literal query. -/
theorem batch_isolation_witness :
    ({ cacheControl := .off } : GraphQLOptions).cacheControl = .off
      ∧ (handleRequest testLib { cacheControl := .off } testParseVariables
          testParseExtensions testSha [] false false
          { query := .nonString false }).result
        = .error (.httpError 400 "GraphQL queries must be strings." false [])
      ∧ (handleRequest testLib { cacheControl := .off } testParseVariables
          testParseExtensions testSha [] false false
          { query := .str "\x7b testString \x7d" }).result
        = .ok { data := some (.obj [("testString", .str "it works")]) }
      ∧ (gatherResponses true
          [(handleRequest testLib { cacheControl := .off } testParseVariables
              testParseExtensions testSha [] false false
              { query := .nonString false }).result,
            (handleRequest testLib { cacheControl := .off } testParseVariables
              testParseExtensions testSha [] false false
              { query := .str "\x7b testString \x7d" }).result]
          = .ok [{ errors := some [formatApolloError
                (.httpError 400 "GraphQL queries must be strings." false [])] },
              { data := some (.obj [("testString", .str "it works")]) }]
        ∧ resultStatus (runHttpQuery testLib { cacheControl := .off }
            testParseVariables testParseExtensions testSha (fun _ => []) []
            false .post
            (some (.batch [{ query := .nonString false },
              { query := .str "\x7b testString \x7d" }]))) = 200) :=
  ⟨rfl, rfl, rfl,
    batch_isolation testLib { cacheControl := .off } testParseVariables
      testParseExtensions testSha (fun _ => []) [] false
      { query := .nonString false } { query := .str "\x7b testString \x7d" }
      (.httpError 400 "GraphQL queries must be strings." false [])
      { data := some (.obj [("testString", .str "it works")]) }
      rfl rfl rfl⟩

/-- C6: a non-batched request whose pipeline result carries `errors` with
undefined `data` makes `runHttpQuery` throw a 400 `HttpQueryError`; any
other successful single result is returned as a 200 envelope. -/
theorem single_dataless_error_400 {Doc : Type} (lib : GraphQLLib Doc)
    (opts : GraphQLOptions)
    (jV : String → Option GValue) (jE : String → Option RequestExtensions)
    (sha256 : String → String)
    (calcHeaders : List GraphQLResponse → List (String × String))
    (cache : Cache) (setFails : Bool)
    (p : HttpRequestParams) (r : GraphQLResponse)
    (hcc : opts.cacheControl = .off)
    (hp : (handleRequest lib opts jV jE sha256 cache setFails false p).result
      = .ok r) :
    resultStatus (runHttpQuery lib opts jV jE sha256 calcHeaders cache
        setFails .post (some (.single p)))
      = if r.errors.isSome && r.data.isNone then 400 else 200 := by
  by_cases hcond : (r.errors.isSome && r.data.isNone) = true
  · simp [runHttpQuery, runHttpQueryResolved, gatherResponses, hp, hcc, hcond,
      resultStatus, throwHttpGraphQLError]
  · simp [runHttpQuery, runHttpQueryResolved, gatherResponses, hp, hcc, hcond,
      resultStatus]

/-- C6 witness: a parse failure produces an errors-only response, and the
single-request envelope is a 400. -/
theorem single_dataless_error_400_witness :
    ({ cacheControl := .off } : GraphQLOptions).cacheControl = .off
      ∧ (handleRequest testLib { cacheControl := .off } testParseVariables
          testParseExtensions testSha [] false false
          { query := .str "nope" }).result
        = .ok { errors := some [{ message := "Syntax Error: nope" }] }
      ∧ resultStatus (runHttpQuery testLib { cacheControl := .off }
          testParseVariables testParseExtensions testSha (fun _ => []) []
          false .post (some (.single { query := .str "nope" })))
        = if (some [{ message := "Syntax Error: nope" }]
              : Option (List GqlError)).isSome
            && (none : Option GValue).isNone then 400 else 200 :=
  ⟨rfl, rfl,
    single_dataless_error_400 testLib { cacheControl := .off }
      testParseVariables testParseExtensions testSha (fun _ => []) [] false
      { query := .str "nope" }
      { errors := some [{ message := "Syntax Error: nope" }] } rfl rfl⟩

/-- C7: a GET request whose resolved operation is not a `query` (e.g. a
mutation) fails with an `HttpQueryError` of status 405 carrying the header
`Allow: POST`, the EXECUTE stage is never reached, and `runHttpQuery`
surfaces exactly that transport error. The hook's invocation point (in the
missing `requestProcessing.ts`) is modelled from the spec; the hook's
contents are `runHttpQuery`'s. -/
theorem get_mutation_405 {Doc : Type} (lib : GraphQLLib Doc)
    (opts : GraphQLOptions)
    (jV : String → Option GValue) (jE : String → Option RequestExtensions)
    (sha256 : String → String)
    (calcHeaders : List GraphQLResponse → List (String × String))
    (cache : Cache) (setFails : Bool)
    (q : String) (opName : Option String) (d : Doc) (op : Operation)
    (hq : q ≠ "")
    (hparse : lib.parse q = .ok d)
    (hval : lib.validate d = [])
    (hop : lib.getOperationAST d opName = some op)
    (hkind : op.kind ≠ .query)
    (hds : (opts.dataSources.isSome
      && opts.contextKeys.contains "dataSources") = false) :
    (handleRequest lib opts jV jE sha256 cache setFails true
          ⟨.str q, opName, .absent, .absent⟩).result
        = .error (.httpError 405 "GET supports only query operation" false
            [("Allow", "POST")])
      ∧ PEvent.executeReached ∉ (handleRequest lib opts jV jE sha256 cache
          setFails true ⟨.str q, opName, .absent, .absent⟩).events
      ∧ runHttpQuery lib opts jV jE sha256 calcHeaders cache setFails .get
          (some (.single ⟨.str q, opName, .absent, .absent⟩))
        = .error ⟨405, "GET supports only query operation", false,
            [("Allow", "POST")]⟩ := by
  have hbody : runParsedQuery lib (pipelineConfigOfOptions opts)
      getMethodHook q opName none
      = (.error (.httpError 405 "GET supports only query operation" false
          [("Allow", "POST")]), []) := by
    simp [runParsedQuery, hparse, hval, hop, getMethodHook, hkind]
  have hrq : resolveQuery (pipelineConfigOfOptions opts) sha256 cache
      { query := some q, operationName := opName, variableValues := none,
        extensions := none }
      = .ok ⟨q, false, false, []⟩ := by
    simp [resolveQuery, hq]
  have hds0 : initializeDataSourcesCheck (pipelineConfigOfOptions opts)
      = none := rfl
  have hproc : processRequest lib (pipelineConfigOfOptions opts)
      getMethodHook sha256 cache setFails
      { query := some q, operationName := opName, variableValues := none,
        extensions := none }
      = ⟨.error (.httpError 405 "GET supports only query operation" false
            [("Allow", "POST")]),
          [.requestDidStart, .requestDidEnd], [], false⟩ := by
    simp [processRequest, hds0, hrq, hbody]
  have hhr : handleRequest lib opts jV jE sha256 cache setFails true
      ⟨.str q, opName, .absent, .absent⟩
      = ⟨.error (.httpError 405 "GET supports only query operation" false
            [("Allow", "POST")]),
          [.requestDidStart, .requestDidEnd], [], false⟩ := by
    simp [handleRequest, hproc]
    intro h1
    simp_all
  refine ⟨by rw [hhr], by rw [hhr]; decide, ?_⟩
  simp [runHttpQuery, runHttpQueryResolved, gatherResponses, hhr,
    classifySingleError]

/-- C7 witness: the concrete mutation document over the test library. -/
theorem get_mutation_405_witness :
    "mutation M \x7b go \x7d" ≠ ""
      ∧ testLib.parse "mutation M \x7b go \x7d" = .ok ⟨"mutation M \x7b go \x7d"⟩
      ∧ testLib.validate ⟨"mutation M \x7b go \x7d"⟩ = []
      ∧ testLib.getOperationAST ⟨"mutation M \x7b go \x7d"⟩ none
        = some ⟨.mutation, some "M"⟩
      ∧ (⟨.mutation, some "M"⟩ : Operation).kind ≠ .query
      ∧ runHttpQuery testLib {} testParseVariables testParseExtensions testSha
          (fun _ => []) [] false .get
          (some (.single ⟨.str "mutation M \x7b go \x7d", none, .absent, .absent⟩))
        = .error ⟨405, "GET supports only query operation", false,
            [("Allow", "POST")]⟩ :=
  ⟨by decide, rfl, rfl, rfl, by decide,
    (get_mutation_405 testLib {} testParseVariables testParseExtensions
      testSha (fun _ => []) [] false "mutation M \x7b go \x7d" none
      ⟨"mutation M \x7b go \x7d"⟩ ⟨.mutation, some "M"⟩
      (by decide) rfl rfl rfl (by decide) rfl).2.2⟩

/-- C8 counterexample: a present but falsy non-string `query` (e.g. JSON
`null` in a POST body) skips the truthiness-gated string check, reaches
the pipeline — the member outcome is a full pipeline invocation — and
fails with 400 `"Must provide query string."`, not with the claimed
`"GraphQL queries must be strings."`. -/
theorem nonstring_query_falsy_counterexample :
    handleRequest testLib {} testParseVariables testParseExtensions testSha
        [] false false ⟨.nonStringFalsy, none, .absent, .absent⟩
      = processRequest testLib (pipelineConfigOfOptions {}) none testSha []
          false
          { query := none, operationName := none, variableValues := none,
            extensions := none }
    ∧ runHttpQuery testLib {} testParseVariables testParseExtensions testSha
        (fun _ => []) [] false .post
        (some (.single ⟨.nonStringFalsy, none, .absent, .absent⟩))
      = .error ⟨400, "Must provide query string.", false, []⟩
    ∧ runHttpQuery testLib {} testParseVariables testParseExtensions testSha
        (fun _ => []) [] false .post
        (some (.single ⟨.nonStringFalsy, none, .absent, .absent⟩))
      ≠ .error ⟨400, "GraphQL queries must be strings.", false, []⟩ := by
  refine ⟨rfl, rfl, ?_⟩
  have h : runHttpQuery testLib {} testParseVariables testParseExtensions
      testSha (fun _ => []) [] false .post
      (some (.single ⟨.nonStringFalsy, none, .absent, .absent⟩))
      = .error ⟨400, "Must provide query string.", false, []⟩ := rfl
  rw [h]
  intro hc
  injection hc with hc
  injection hc with _ hc
  exact absurd hc (by decide)

/-- C8 (amended): a present TRUTHY non-string `query` member fails with a
400 `HttpQueryError` whose message is `"GraphQL queries must be
strings."` (the extended explanatory message when the value looks like a
parsed graphql-js document), before any pipeline invocation — the member
outcome carries no lifecycle event. A present FALSY non-string `query`
(JSON `null`, `0`, `false`) instead skips the truthiness-gated check and
is handed to the pipeline; carrying no persisted-query extension it fails
with 400 `"Must provide query string."`. -/
theorem nonstring_query_400 {Doc : Type} (lib : GraphQLLib Doc)
    (opts : GraphQLOptions)
    (jV : String → Option GValue) (jE : String → Option RequestExtensions)
    (sha256 : String → String)
    (calcHeaders : List GraphQLResponse → List (String × String))
    (cache : Cache) (setFails : Bool)
    (opName : Option String) (pv : VariablesParam) (pe : ExtensionsParam)
    (isDocumentKind : Bool)
    (hds : (opts.dataSources.isSome
      && opts.contextKeys.contains "dataSources") = false) :
    ((handleRequest lib opts jV jE sha256 cache setFails false
          ⟨.nonString isDocumentKind, opName, pv, pe⟩).result
        = .error (.httpError 400
            (if isDocumentKind then documentQueryMessage
              else "GraphQL queries must be strings.") false [])
      ∧ (handleRequest lib opts jV jE sha256 cache setFails false
          ⟨.nonString isDocumentKind, opName, pv, pe⟩).events = []
      ∧ runHttpQuery lib opts jV jE sha256 calcHeaders cache setFails .post
          (some (.single ⟨.nonString isDocumentKind, opName, pv, pe⟩))
        = .error ⟨400,
            (if isDocumentKind then documentQueryMessage
              else "GraphQL queries must be strings."), false, []⟩)
    ∧ (handleRequest lib opts jV jE sha256 cache setFails false
          ⟨.nonStringFalsy, opName, .absent, .absent⟩
        = processRequest lib (pipelineConfigOfOptions opts) none sha256 cache
            setFails
            { query := none, operationName := opName, variableValues := none,
              extensions := none }
      ∧ runHttpQuery lib opts jV jE sha256 calcHeaders cache setFails .post
          (some (.single ⟨.nonStringFalsy, opName, .absent, .absent⟩))
        = .error ⟨400, "Must provide query string.", false, []⟩) := by
  have hds0 : initializeDataSourcesCheck (pipelineConfigOfOptions opts)
      = none := rfl
  have hrq : resolveQuery (pipelineConfigOfOptions opts) sha256 cache
      { query := none, operationName := opName, variableValues := none,
        extensions := none }
      = .error (.invalidGraphQLRequest "Must provide query string.") := by
    simp [resolveQuery]
  have hproc : processRequest lib (pipelineConfigOfOptions opts) none sha256
      cache setFails
      { query := none, operationName := opName, variableValues := none,
        extensions := none }
      = ⟨.error (.invalidGraphQLRequest "Must provide query string."),
          [], [], false⟩ := by
    simp [processRequest, hds0, hrq]
  have hfalsy : handleRequest lib opts jV jE sha256 cache setFails false
      ⟨.nonStringFalsy, opName, .absent, .absent⟩
      = processRequest lib (pipelineConfigOfOptions opts) none sha256 cache
          setFails
          { query := none, operationName := opName, variableValues := none,
            extensions := none } := by
    simp [handleRequest]
    intro h1
    simp_all
  constructor
  · cases pe <;> cases isDocumentKind <;>
      simp [handleRequest, runHttpQuery, runHttpQueryResolved,
        gatherResponses, classifySingleError]
  · refine ⟨hfalsy, ?_⟩
    have hres : (handleRequest lib opts jV jE sha256 cache setFails false
        ⟨.nonStringFalsy, opName, .absent, .absent⟩).result
        = .error (.invalidGraphQLRequest "Must provide query string.") := by
      rw [hfalsy, hproc]
    simp [runHttpQuery, runHttpQueryResolved, gatherResponses, hres,
      classifySingleError]

/-- C8 witness: the truthy document-kind value and the falsy value on the
default options. -/
theorem nonstring_query_400_witness :
    (({} : GraphQLOptions).dataSources.isSome
        && ({} : GraphQLOptions).contextKeys.contains "dataSources") = false
    ∧ (((handleRequest testLib {} testParseVariables testParseExtensions
            testSha [] false false
            ⟨.nonString true, none, .absent, .absent⟩).result
          = .error (.httpError 400
              (if true then documentQueryMessage
                else "GraphQL queries must be strings.") false [])
        ∧ (handleRequest testLib {} testParseVariables testParseExtensions
            testSha [] false false
            ⟨.nonString true, none, .absent, .absent⟩).events = []
        ∧ runHttpQuery testLib {} testParseVariables testParseExtensions
            testSha (fun _ => []) [] false .post
            (some (.single ⟨.nonString true, none, .absent, .absent⟩))
          = .error ⟨400,
              (if true then documentQueryMessage
                else "GraphQL queries must be strings."), false, []⟩)
      ∧ (handleRequest testLib {} testParseVariables testParseExtensions
            testSha [] false false
            ⟨.nonStringFalsy, none, .absent, .absent⟩
          = processRequest testLib (pipelineConfigOfOptions {}) none testSha
              [] false
              { query := none, operationName := none, variableValues := none,
                extensions := none }
        ∧ runHttpQuery testLib {} testParseVariables testParseExtensions
            testSha (fun _ => []) [] false .post
            (some (.single ⟨.nonStringFalsy, none, .absent, .absent⟩))
          = .error ⟨400, "Must provide query string.", false, []⟩)) :=
  ⟨rfl,
    nonstring_query_400 testLib {} testParseVariables testParseExtensions
      testSha (fun _ => []) [] false none .absent .absent true rfl⟩

/-- C10: a string-valued `variables` member is JSON-decoded before the
pipeline runs, for POST requests as well as GET requests: a failed decode
yields a 400 `HttpQueryError` with message `"Variables are invalid JSON."`
under both methods, and a successful decode makes the member behave
exactly as if the decoded value had been supplied directly. -/
theorem string_variables_decoded {Doc : Type} (lib : GraphQLLib Doc)
    (opts : GraphQLOptions)
    (jV : String → Option GValue) (jE : String → Option RequestExtensions)
    (sha256 : String → String)
    (calcHeaders : List GraphQLResponse → List (String × String))
    (cache : Cache) (setFails : Bool)
    (q s : String) (opName : Option String) (v : GValue) (isGet : Bool) :
    (jV s = none →
      runHttpQuery lib opts jV jE sha256 calcHeaders cache setFails .post
          (some (.single ⟨.str q, opName, .str s, .absent⟩))
        = .error ⟨400, "Variables are invalid JSON.", false, []⟩
      ∧ runHttpQuery lib opts jV jE sha256 calcHeaders cache setFails .get
          (some (.single ⟨.str q, opName, .str s, .absent⟩))
        = .error ⟨400, "Variables are invalid JSON.", false, []⟩)
    ∧ (jV s = some v →
      handleRequest lib opts jV jE sha256 cache setFails isGet
          ⟨.str q, opName, .str s, .absent⟩
        = handleRequest lib opts jV jE sha256 cache setFails isGet
          ⟨.str q, opName, .val v, .absent⟩) := by
  constructor
  · intro hnone
    constructor <;>
      simp [runHttpQuery, runHttpQueryResolved, gatherResponses,
        handleRequest, hnone, classifySingleError]
  · intro hsome
    cases isGet <;> simp [handleRequest, hsome]

/-- C10 witness: a failed decode on a POST request and a successful decode
equivalence on the concrete parser. -/
theorem string_variables_decoded_witness :
    (testParseVariables "notjson" = none
      ∧ runHttpQuery testLib {} testParseVariables testParseExtensions
          testSha (fun _ => []) [] false .post
          (some (.single ⟨.str "\x7b testString \x7d", none, .str "notjson",
            .absent⟩))
        = .error ⟨400, "Variables are invalid JSON.", false, []⟩)
    ∧ (testParseVariables "\x7b\"echo\":\"world\"\x7d"
        = some (.obj [("echo", .str "world")])
      ∧ handleRequest testLib {} testParseVariables testParseExtensions
          testSha [] false false
          ⟨.str "\x7b testString \x7d", none,
            .str "\x7b\"echo\":\"world\"\x7d", .absent⟩
        = handleRequest testLib {} testParseVariables testParseExtensions
          testSha [] false false
          ⟨.str "\x7b testString \x7d", none,
            .val (.obj [("echo", .str "world")]), .absent⟩) :=
  ⟨⟨rfl,
      ((string_variables_decoded testLib {} testParseVariables
        testParseExtensions testSha (fun _ => []) [] false
        "\x7b testString \x7d" "notjson" none .null false).1 rfl).1⟩,
    ⟨rfl,
      (string_variables_decoded testLib {} testParseVariables
        testParseExtensions testSha (fun _ => []) [] false
        "\x7b testString \x7d" "\x7b\"echo\":\"world\"\x7d" none
        (.obj [("echo", .str "world")]) false).2 rfl⟩⟩

end ApolloServer
